import Mathlib

/-!
# Verification of `textual_datepicker/_date_select.py`

A shallow embedding of the widget glue code in `_date_select.py`:
the `DateSelect` control, the `DatePickerDialog` host, and the
`DatePickerDialogScreen` modal screen.  Python strings are modelled as
`List Char`, Python integers as `Int`/`Nat` (terminal sizes are
non-negative), Python floor division `//` as `Int.fdiv`, and the
framework-owned mutable state (display flags, the screen stack, the
focused widget, installed screens, posted messages) as explicit
record-passing.  The external `pendulum.DateTime` is opaque: it is
modelled by its `day` number and its `format` method.
-/

namespace TextualDatepicker

/-! ## Basic data -/

/-- The external `pendulum.DateTime`, reduced to what the code uses:
its `day` attribute and its `format(fmt)` method (the date library's
formatting, out of scope per the spec, kept abstract as a function
carried by the value). -/
structure PendulumDateTime where
  day : Nat
  format : List Char → List Char

/-- A `DayLabel` widget inside the mounted `DatePicker`, reduced to what
the queries in `_date_select.py` inspect: its `day` attribute and
whether it carries the CSS classes `--today` resp. `--day`. -/
structure DayLabel where
  day : Nat
  isToday : Bool
  isDay : Bool
deriving DecidableEq, Repr

/-- `DatePickerDialog.size = Size(30, 17)`: the dialog width. -/
def dialogWidth : Nat := 30

/-- `DatePickerDialog.size = Size(30, 17)`: the dialog height. -/
def dialogHeight : Nat := 17

/-- The screen name used by `DateSelect.on_mount` /
`DateSelect._show_date_picker`. -/
def dialogScreenName : String := "date_picker_dialog_screen"

/-! ## The centering arithmetic and the modal screen
(`DatePickerDialogScreen`) -/

/-- The centering value named by the specification:
`((app_width - 30) // 2, (app_height - 17) // 2)` with Python floor
division (`Int.fdiv`). -/
def centeringValue (appW appH : Nat) : Int × Int :=
  (((appW : Int) - 30).fdiv 2, ((appH : Int) - 17).fdiv 2)

/-- `DatePickerDialogScreen.on_resize`: sets the dialog offset to
`((self.app.size[0] - self.dialog.size[0])//2,
(self.app.size[1] - self.dialog.size[1])//2)`. -/
def screenOnResize (appW appH : Nat) : Int × Int :=
  (((appW : Int) - (dialogWidth : Int)).fdiv 2,
   ((appH : Int) - (dialogHeight : Int)).fdiv 2)

/-- `app.pop_screen()`: removes the top entry of the screen stack
(the head of the list). -/
def popScreen (stack : List String) : List String := stack.tail

/-- `DatePickerDialogScreen.on_click`: pops the screen when the click's
screen coordinates fall outside the dialog rectangle, mirroring
`if not (ox <= x < ox + w) or not (oy <= y < oy + h): self.app.pop_screen()`. -/
def screenOnClick (offset : Int × Int) (screenX screenY : Int)
    (stack : List String) : List String :=
  if ¬ (offset.1 ≤ screenX ∧ screenX < offset.1 + (dialogWidth : Int)) ∨
     ¬ (offset.2 ≤ screenY ∧ screenY < offset.2 + (dialogHeight : Int)) then
    popScreen stack
  else
    stack

/-- The screen-local state read by `DatePickerDialogScreen.on_mount`:
the app size, the screen's stored `self.date`, and the `DayLabel`
widgets living in the dialog's DOM subtree (in query order). -/
structure ScreenState where
  appW : Nat
  appH : Nat
  storedDate : Option PendulumDateTime
  labels : List DayLabel

/-- The effects of `DatePickerDialogScreen.on_mount`: the offset written
to the dialog, the assignment (if any) made to
`self.dialog.date_picker.date`, and which widget `.focus()` was called
on — or the `NoMatches` exception the handler lets escape. -/
structure MountResult where
  offset : Int × Int
  datePickerDate : Option PendulumDateTime
  focusResult : Except String (Option DayLabel)

/-- `DatePickerDialogScreen.on_mount`.  The offset assignment duplicates
the `on_resize` formula.  With a stored date, `self.dialog.date_picker.date`
is set and the loop `for day in self.dialog.query("DayLabel.--day")`
focuses the first label whose `day` equals the stored date's `day`
(`break`), focusing nothing if none matches.  Without a stored date,
`query_one("DayLabel.--today")` (first `--today` match, `NoMatches` when
none) is focused; on `NoMatches` the fallback
`query("DayLabel.--day").first()` is focused, and `first()` itself
raises `NoMatches` on an empty query, which the handler does not catch. -/
def screenOnMount (s : ScreenState) : MountResult :=
  let offset :=
    (((s.appW : Int) - (dialogWidth : Int)).fdiv 2,
     ((s.appH : Int) - (dialogHeight : Int)).fdiv 2)
  match s.storedDate with
  | some d =>
      { offset := offset
        datePickerDate := some d
        focusResult :=
          Except.ok ((s.labels.filter fun l => l.isDay).find? fun l => l.day == d.day) }
  | none =>
      { offset := offset
        datePickerDate := none
        focusResult :=
          match s.labels.find? fun l => l.isToday with
          | some l => Except.ok (some l)
          | none =>
              match (s.labels.filter fun l => l.isDay).head? with
              | some l => Except.ok (some l)
              | none => Except.error "NoMatches" }

/-! ## `DateSelect`: construction, `value`, `render` -/

/-- The widget-local state of a `DateSelect`: the reactive `date`
(default `None`), the `format` string and the `placeholder`. -/
structure DateSelectState where
  date : Option PendulumDateTime
  format : List Char
  placeholder : List Char

/-- `DateSelect.__init__`: stores `placeholder` and `format`; the
reactive `date` defaults to `None` and is assigned only under
`if date is not None`. -/
def dateSelectInit (date : Option PendulumDateTime)
    (format placeholder : List Char) : DateSelectState :=
  { date := match date with
            | some d => some d
            | none => none
    format := format
    placeholder := placeholder }

/-- The `DateSelect.value` property: returns `self.date`. -/
def DateSelectState.value (s : DateSelectState) : Option PendulumDateTime :=
  s.date

/-- `DateSelect.on_date_picker_selected`: `self.date = event.date`. -/
def selectOnDatePickerSelected (eventDate : PendulumDateTime)
    (s : DateSelectState) : DateSelectState :=
  { s with date := some eventDate }

/-- The chevron `"▼"` rendered by `DateSelect.render`. -/
def chevronChar : Char := '▼'

/-- Python left-justification `f"{text:{n}}"` for strings: pad with
spaces on the right up to width `n` (no truncation). -/
def pyLjust (s : List Char) (n : Nat) : List Char :=
  s ++ List.replicate (n - s.length) ' '

/-- The text `DateSelect.render` starts from: the placeholder when
`self.date` is falsy (`None`), else `self.date.format(self.format)`. -/
def displayText (s : DateSelectState) : List Char :=
  match s.date with
  | none => s.placeholder
  | some d => d.format s.format

/-- `DateSelect.render`: `text_space = width - 2` clamped at `0`; the
display text is truncated (`text[0:text_space]`) when longer than
`text_space`; the result is `f"{text:{text_space}} {chevron}"`. -/
def renderDateSelect (s : DateSelectState) (contentWidth : Nat) : List Char :=
  let textSpaceInt : Int := (contentWidth : Int) - 2
  let textSpace : Nat := (if textSpaceInt < 0 then 0 else textSpaceInt).toNat
  let text : List Char :=
    match s.date with
    | none => s.placeholder
    | some d => d.format s.format
  let text := if textSpace < text.length then text.take textSpace else text
  pyLjust text textSpace ++ [' ', chevronChar]

/-! ## App-level state and the event handlers that mutate it -/

/-- The framework-owned mutable state touched by the handlers in
`_date_select.py`: the dialog's `display` flag, the screen stack (head =
top), the installed screen names, the currently focused widget (by
name), and the log of messages posted by this file's widgets. -/
structure AppState where
  dialogDisplay : Bool
  screenStack : List String
  installedScreens : List String
  focused : Option String
  posted : List String
deriving DecidableEq, Repr

/-- `self.display = b` on the dialog. -/
def setDialogDisplay (b : Bool) (s : AppState) : AppState :=
  { s with dialogDisplay := b }

/-- `self.app.pop_screen()`. -/
def appPopScreen (s : AppState) : AppState :=
  { s with screenStack := s.screenStack.tail }

/-- `self.app.push_screen(name)`. -/
def appPushScreen (n : String) (s : AppState) : AppState :=
  { s with screenStack := n :: s.screenStack }

/-- `self.app.install_screen(screen, name=n)`. -/
def appInstallScreen (n : String) (s : AppState) : AppState :=
  { s with installedScreens := n :: s.installedScreens }

/-- `target.focus()`. -/
def widgetFocus (t : String) (s : AppState) : AppState :=
  { s with focused := some t }

/-- `DatePickerDialog.on_date_picker_selected`: `self.display = False`,
`self.app.pop_screen()`, then `self.target.focus()` only under
`if self.target is not None`. -/
def dialogOnDatePickerSelected (target : Option String) (s : AppState) :
    AppState :=
  let s1 := setDialogDisplay false s
  let s2 := appPopScreen s1
  match target with
  | some t => widgetFocus t s2
  | none => s2

/-- `DateSelect.on_mount`: installs the dialog screen under the name
`"date_picker_dialog_screen"` (the dialog itself is created on first
mount; its creation has no `AppState` effect). -/
def dateSelectOnMount (s : AppState) : AppState :=
  appInstallScreen dialogScreenName s

/-- `DateSelect._show_date_picker`: `self.dialog.display = True` then
`self.app.push_screen("date_picker_dialog_screen")`.  No message is
posted. -/
def showDatePicker (s : AppState) : AppState :=
  appPushScreen dialogScreenName (setDialogDisplay true s)

/-- `DateSelect.on_key`: only `"enter"` opens the picker. -/
def dateSelectOnKey (key : String) (s : AppState) : AppState :=
  if key == "enter" then showDatePicker s else s

/-- `DateSelect.on_click`: always opens the picker. -/
def dateSelectOnClick (s : AppState) : AppState :=
  showDatePicker s

/-! ## Composition structure (which widget embeds which) -/

/-- The widget tree shapes occurring in `_date_select.py`'s `compose`
methods. -/
inductive UiWidget where
  | datePicker : UiWidget
  | vertical : List UiWidget → UiWidget
  | dialogNode : List UiWidget → UiWidget

/-- The immediate children of a composed widget. -/
def UiWidget.topChildren : UiWidget → List UiWidget
  | .datePicker => []
  | .vertical cs => cs
  | .dialogNode cs => cs

/-- `DatePickerDialog.compose`: `yield Vertical(self.date_picker)` where
`self.date_picker = DatePicker()`. -/
def datePickerDialogCompose : List UiWidget :=
  [UiWidget.vertical [UiWidget.datePicker]]

/-- The dialog as mounted: a `DatePickerDialog` node holding its
composed children. -/
def mountedDialogNode : UiWidget :=
  UiWidget.dialogNode datePickerDialogCompose

/-- `DatePickerDialogScreen.compose`: `yield self.dialog`. -/
def dialogScreenCompose : List UiWidget :=
  [mountedDialogNode]

/-! ## The dialog host's blur handler (`DatePickerDialog.on_descendant_blur`) -/

/-- A descendant widget of the dialog, reduced to whether the
`:focus-within` pseudo-class applies to it. -/
structure Descendant where
  focusWithin : Bool
deriving DecidableEq, Repr

/-- The dialog-local state read by `on_descendant_blur`: the `display`
flag and the dialog's DOM descendants. -/
structure DialogHost where
  display : Bool
  descendants : List Descendant
deriving DecidableEq, Repr

/-- `DatePickerDialog.on_descendant_blur`:
`if len(self.query("*:focus-within")) == 0: self.display = False`. -/
def dialogOnDescendantBlur (st : DialogHost) : DialogHost :=
  if (st.descendants.filter fun d => d.focusWithin).length == 0 then
    { st with display := false }
  else
    st

end TextualDatepicker

namespace TextualDatepicker

/-! ## Helper lemmas -/

/-- Floor division of a non-negative integer by two stays between zero
and the dividend. -/
theorem fdiv_two_bounds (d : Int) (h : 0 ≤ d) : 0 ≤ d.fdiv 2 ∧ d.fdiv 2 ≤ d := by
  have h2 : (0 : Int) ≤ 2 := by norm_num
  have heq : d.fdiv 2 = d / 2 := Int.fdiv_eq_ediv d h2
  constructor
  · rw [heq]; exact Int.ediv_nonneg h h2
  · rw [heq]; exact Int.ediv_le_self 2 h

/-! ## C1 -/

/-- C1, counterexample to the claim as stated: "for every application
size" fails.  At app size 29×17 both handlers set the offset to
`(-1, 0)` (Python floor division of `-1` by `2` is `-1`), whose first
component is negative, so the 30×17 dialog is not kept within the
viewport. -/
theorem C1_counterexample :
    screenOnResize 29 17 = ((-1 : Int), (0 : Int)) ∧
    ¬ (0 ≤ (screenOnResize 29 17).1 ∧ 0 ≤ (screenOnResize 29 17).2 ∧
       (screenOnResize 29 17).1 + 30 ≤ (29 : Int) ∧
       (screenOnResize 29 17).2 + 17 ≤ (17 : Int)) := by
  decide

/-- C1 (amended): `DatePickerDialogScreen.on_mount` and
`DatePickerDialogScreen.on_resize` both set the dialog's offset to the
centering value `((app_width - 30) // 2, (app_height - 17) // 2)`
computed with floor division, and whenever the application is at least
as large as the 30×17 dialog this offset keeps the dialog within the
terminal viewport: both components are non-negative and offset plus
dialog size does not exceed the application size. -/
theorem C1_centering_in_viewport (s : ScreenState)
    (hW : dialogWidth ≤ s.appW) (hH : dialogHeight ≤ s.appH) :
    screenOnResize s.appW s.appH = centeringValue s.appW s.appH ∧
    (screenOnMount s).offset = centeringValue s.appW s.appH ∧
    0 ≤ (centeringValue s.appW s.appH).1 ∧
    0 ≤ (centeringValue s.appW s.appH).2 ∧
    (centeringValue s.appW s.appH).1 + 30 ≤ (s.appW : Int) ∧
    (centeringValue s.appW s.appH).2 + 17 ≤ (s.appH : Int) := by
  have hW30 : (30 : Int) ≤ (s.appW : Int) := by
    have h30 : (30 : Nat) ≤ s.appW := hW
    exact_mod_cast h30
  have hH17 : (17 : Int) ≤ (s.appH : Int) := by
    have h17 : (17 : Nat) ≤ s.appH := hH
    exact_mod_cast h17
  obtain ⟨ha1, ha2⟩ := fdiv_two_bounds ((s.appW : Int) - 30) (by omega)
  obtain ⟨hb1, hb2⟩ := fdiv_two_bounds ((s.appH : Int) - 17) (by omega)
  refine ⟨?_, ?_, ?_, ?_, ?_, ?_⟩
  · simp [screenOnResize, centeringValue, dialogWidth, dialogHeight]
  · cases hs : s.storedDate <;>
      simp [screenOnMount, centeringValue, dialogWidth, dialogHeight, hs]
  · simpa [centeringValue] using ha1
  · simpa [centeringValue] using hb1
  · simp only [centeringValue]; linarith [ha2]
  · simp only [centeringValue]; linarith [hb2]

/-- C1 witness: the amended theorem applied at app size 80×24. -/
theorem C1_witness :
    screenOnResize 80 24 = centeringValue 80 24 ∧
    (screenOnMount ⟨80, 24, none, []⟩).offset = centeringValue 80 24 ∧
    0 ≤ (centeringValue 80 24).1 ∧
    0 ≤ (centeringValue 80 24).2 ∧
    (centeringValue 80 24).1 + 30 ≤ (80 : Int) ∧
    (centeringValue 80 24).2 + 17 ≤ (24 : Int) :=
  C1_centering_in_viewport ⟨80, 24, none, []⟩ (by decide) (by decide)

/-! ## C2 -/

/-- C2: `DatePickerDialogScreen.on_click` pops the screen exactly when
the click's screen coordinates fall outside the half-open rectangle
`ox ≤ x < ox + 30`, `oy ≤ y < oy + 17`; a click inside leaves the screen
stack unchanged. -/
theorem C2_click_hit_test (ox oy x y : Int) (stack : List String) :
    screenOnClick (ox, oy) x y stack =
      if (ox ≤ x ∧ x < ox + (dialogWidth : Int)) ∧
         (oy ≤ y ∧ y < oy + (dialogHeight : Int)) then
        stack
      else
        popScreen stack := by
  by_cases h1 : ox ≤ x ∧ x < ox + (dialogWidth : Int) <;>
    by_cases h2 : oy ≤ y ∧ y < oy + (dialogHeight : Int) <;>
      simp [screenOnClick, h1, h2]

/-! ## C3 -/

/-- C3, counterexample to "on_mount never propagates the NoMatches
error": when the dialog's subtree holds no `DayLabel` at all, the
fallback `query("DayLabel.--day").first()` inside the `except NoMatches`
block itself raises `NoMatches`, which escapes the handler. -/
theorem C3_counterexample :
    (screenOnMount ⟨80, 24, none, []⟩).focusResult =
      Except.error "NoMatches" := rfl

/-- C3 (amended): when `DatePickerDialogScreen.on_mount` runs with its
stored date equal to `None` and at least one `DayLabel` with class
`--day` exists, it focuses the `DayLabel` carrying the `--today` class
when that lookup succeeds, and otherwise (lookup fails with `NoMatches`,
which is caught) focuses the first `DayLabel` carrying the `--day`
class; in that case no `NoMatches` error propagates. -/
theorem C3_today_focus_fallback (s : ScreenState) (hd : s.storedDate = none)
    (h : ∃ l ∈ s.labels, l.isDay = true) :
    ∃ l, (screenOnMount s).focusResult = Except.ok (some l) ∧
      (∀ t, s.labels.find? (fun x => x.isToday) = some t → l = t) ∧
      (s.labels.find? (fun x => x.isToday) = none →
        (s.labels.filter fun x => x.isDay).head? = some l) := by
  cases hfind : s.labels.find? fun x => x.isToday with
  | some t =>
      refine ⟨t, ?_, ?_, ?_⟩
      · simp [screenOnMount, hd, hfind]
      · intro t2 ht2
        exact Option.some.inj ht2
      · intro hn
        exact Option.noConfusion hn
  | none =>
      obtain ⟨l0, hl0mem, hl0day⟩ := h
      have hmem : l0 ∈ s.labels.filter fun x => x.isDay :=
        List.mem_filter.mpr ⟨hl0mem, by simp [hl0day]⟩
      cases hfl : s.labels.filter fun x => x.isDay with
      | nil =>
          rw [hfl] at hmem
          exact absurd hmem (List.not_mem_nil l0)
      | cons a rest =>
          refine ⟨a, ?_, ?_, ?_⟩
          · simp [screenOnMount, hd, hfind, hfl]
          · intro t2 ht2
            exact Option.noConfusion ht2
          · intro _
            rfl

/-- C3 witness: the amended theorem applied to a dialog holding one
`--day` label (day 5, not today). -/
theorem C3_witness :
    ∃ l, (screenOnMount ⟨80, 24, none, [⟨5, false, true⟩]⟩).focusResult =
        Except.ok (some l) ∧
      (∀ t, ([⟨5, false, true⟩] : List DayLabel).find? (fun x => x.isToday) =
        some t → l = t) ∧
      (([⟨5, false, true⟩] : List DayLabel).find? (fun x => x.isToday) = none →
        (([⟨5, false, true⟩] : List DayLabel).filter fun x => x.isDay).head? =
          some l) :=
  C3_today_focus_fallback ⟨80, 24, none, [⟨5, false, true⟩]⟩ rfl
    ⟨⟨5, false, true⟩, by decide, rfl⟩

/-! ## C4 -/

/-- C4: when `DatePickerDialogScreen.on_mount` runs with a non-`None`
stored date, it sets the embedded date picker's `date` to that value and
focuses the first `DayLabel` with class `--day` (in query order) whose
`day` equals the stored date's `day`; any focused label indeed carries
`--day` and matches the stored day number. -/
theorem C4_date_focus (s : ScreenState) (d : PendulumDateTime)
    (hd : s.storedDate = some d) :
    (screenOnMount s).datePickerDate = some d ∧
    (screenOnMount s).focusResult =
      Except.ok ((s.labels.filter fun l => l.isDay).find? fun l => l.day == d.day) ∧
    (∀ l, ((s.labels.filter fun l => l.isDay).find? fun l => l.day == d.day) =
        some l → l ∈ s.labels ∧ l.isDay = true ∧ l.day = d.day) := by
  refine ⟨?_, ?_, ?_⟩
  · simp [screenOnMount, hd]
  · simp [screenOnMount, hd]
  · intro l hl
    have hmem := List.mem_of_find?_eq_some hl
    have hp := List.find?_some hl
    have hmem2 := List.mem_filter.mp hmem
    refine ⟨hmem2.1, by simpa using hmem2.2, by simpa using hp⟩

/-- C4 witness: the theorem applied to a stored date with day 5 and a
single matching `--day` label. -/
theorem C4_witness :
    (screenOnMount ⟨80, 24, some ⟨5, fun _ => ([] : List Char)⟩,
        [⟨5, false, true⟩]⟩).datePickerDate =
      some ⟨5, fun _ => ([] : List Char)⟩ ∧
    (screenOnMount ⟨80, 24, some ⟨5, fun _ => ([] : List Char)⟩,
        [⟨5, false, true⟩]⟩).focusResult =
      Except.ok ((([⟨5, false, true⟩] : List DayLabel).filter
        fun l => l.isDay).find? fun l => l.day == 5) ∧
    (∀ l, ((([⟨5, false, true⟩] : List DayLabel).filter
        fun l => l.isDay).find? fun l => l.day == 5) = some l →
      l ∈ ([⟨5, false, true⟩] : List DayLabel) ∧ l.isDay = true ∧ l.day = 5) :=
  C4_date_focus ⟨80, 24, some ⟨5, fun _ => ([] : List Char)⟩,
    [⟨5, false, true⟩]⟩ ⟨5, fun _ => ([] : List Char)⟩ rfl

/-! ## C5 -/

/-- C5: `DateSelect.render` returns the date formatted with the
configured format string (or the placeholder when the date is `None`),
truncated to the content width minus two characters (`Nat` subtraction:
clamped at zero) and left-justified to that width, followed by one space
and the chevron `"▼"`; whenever the content width is at least 2, the
rendered string's length equals the content width. -/
theorem C5_render_shape (s : DateSelectState) (w : Nat) :
    renderDateSelect s w =
      pyLjust ((displayText s).take (w - 2)) (w - 2) ++ [' ', chevronChar] ∧
    (2 ≤ w → (renderDateSelect s w).length = w) := by
  have hts : ((if ((w : Int) - 2) < 0 then (0 : Int) else ((w : Int) - 2)).toNat)
      = w - 2 := by
    split_ifs with h <;> omega
  have key : renderDateSelect s w =
      pyLjust ((displayText s).take (w - 2)) (w - 2) ++ [' ', chevronChar] := by
    cases hdate : s.date with
    | none =>
        simp only [renderDateSelect, displayText, hdate, hts]
        by_cases hlen : w - 2 < s.placeholder.length
        · simp [hlen]
        · simp [hlen, List.take_of_length_le (Nat.le_of_not_lt hlen)]
    | some d =>
        simp only [renderDateSelect, displayText, hdate, hts]
        by_cases hlen : w - 2 < (d.format s.format).length
        · simp [hlen]
        · simp [hlen, List.take_of_length_le (Nat.le_of_not_lt hlen)]
  refine ⟨key, fun hw => ?_⟩
  rw [key]
  simp only [pyLjust, List.length_append, List.length_replicate,
    List.length_take, List.length_cons, List.length_nil]
  omega

/-- C5 witness: with no date, the default format string and an
11-character placeholder, rendering at content width 10 yields a
10-character string. -/
theorem C5_witness :
    2 ≤ 10 ∧
    (renderDateSelect ⟨none, "YYYY-MM-DD".toList, "pick a date".toList⟩
      10).length = 10 :=
  ⟨by decide,
   (C5_render_shape ⟨none, "YYYY-MM-DD".toList, "pick a date".toList⟩ 10).2
     (by decide)⟩

/-! ## C6 -/

/-- C6: whenever `DatePickerDialog` receives a `DatePicker.Selected`
event, it sets its `display` flag to `False`, pops the current screen,
and focuses its `target` exactly when the target is not `None`; no other
app state is touched. -/
theorem C6_selected_closes_dialog (target : Option String) (s : AppState) :
    (dialogOnDatePickerSelected target s).dialogDisplay = false ∧
    (dialogOnDatePickerSelected target s).screenStack = s.screenStack.tail ∧
    (dialogOnDatePickerSelected target s).focused =
      (match target with
       | some t => some t
       | none => s.focused) ∧
    (dialogOnDatePickerSelected target s).installedScreens =
      s.installedScreens ∧
    (dialogOnDatePickerSelected target s).posted = s.posted := by
  cases target <;>
    simp [dialogOnDatePickerSelected, setDialogDisplay, appPopScreen,
      widgetFocus]

/-! ## C7 -/

/-- C7: the enter key or a mouse click on a `DateSelect` sets the
dialog's display flag to `True` and pushes the modal screen named
`"date_picker_dialog_screen"` — the name `DateSelect.on_mount` installed
— while any key other than enter leaves the state unchanged. -/
theorem C7_open_picker (key : String) (s : AppState) :
    (dateSelectOnKey "enter" s).dialogDisplay = true ∧
    (dateSelectOnKey "enter" s).screenStack =
      dialogScreenName :: s.screenStack ∧
    dateSelectOnClick s = dateSelectOnKey "enter" s ∧
    dialogScreenName ∈ (dateSelectOnMount s).installedScreens ∧
    (key ≠ "enter" → dateSelectOnKey key s = s) := by
  refine ⟨?_, ?_, ?_, ?_, fun hk => ?_⟩
  · simp [dateSelectOnKey, showDatePicker, setDialogDisplay, appPushScreen]
  · simp [dateSelectOnKey, showDatePicker, setDialogDisplay, appPushScreen]
  · simp [dateSelectOnKey, dateSelectOnClick]
  · simp [dateSelectOnMount, appInstallScreen]
  · simp [dateSelectOnKey, hk]

/-- C7 witness: the key `"a"` does not open the picker, while enter
does. -/
theorem C7_witness :
    ("a" : String) ≠ "enter" ∧
    dateSelectOnKey "a" ⟨false, [], [dialogScreenName], none, []⟩ =
      ⟨false, [], [dialogScreenName], none, []⟩ ∧
    (dateSelectOnKey "enter"
      ⟨false, [], [dialogScreenName], none, []⟩).dialogDisplay = true :=
  ⟨by decide,
   (C7_open_picker "a" ⟨false, [], [dialogScreenName], none, []⟩).2.2.2.2
     (by decide),
   (C7_open_picker "a" ⟨false, [], [dialogScreenName], none, []⟩).1⟩

/-! ## C8 -/

/-- C8, counterexample to "opening the picker proceeds by event
routing": handling a click on the `DateSelect` opens the dialog (display
flag set, modal screen pushed) while posting no message at all, so no
event raised by the select is caught by the dialog host on this path —
`_show_date_picker` acts by direct calls. -/
theorem C8_counterexample :
    (dateSelectOnClick
      ⟨false, [], ["date_picker_dialog_screen"], none, []⟩).posted = [] ∧
    (dateSelectOnClick
      ⟨false, [], ["date_picker_dialog_screen"], none, []⟩).dialogDisplay =
      true ∧
    (dateSelectOnClick
      ⟨false, [], ["date_picker_dialog_screen"], none, []⟩).screenStack =
      ["date_picker_dialog_screen"] :=
  ⟨rfl, rfl, rfl⟩

/-- C8 (amended): opening the picker proceeds by direct method calls,
not event routing: on click the select itself sets the dialog's display
flag and pushes the modal overlay screen without posting any event; that
screen composes the dialog, and the dialog embeds the calendar widget
(the `DatePicker` composed inside `DatePickerDialog`, under a `Vertical`
container). -/
theorem C8_direct_opening (s : AppState) :
    (dateSelectOnClick s).posted = s.posted ∧
    (dateSelectOnClick s).dialogDisplay = true ∧
    (dateSelectOnClick s).screenStack = dialogScreenName :: s.screenStack ∧
    dialogScreenCompose = [UiWidget.dialogNode datePickerDialogCompose] ∧
    UiWidget.vertical [UiWidget.datePicker] ∈ mountedDialogNode.topChildren ∧
    UiWidget.datePicker ∈
      (UiWidget.vertical [UiWidget.datePicker]).topChildren := by
  refine ⟨?_, ?_, ?_, rfl, ?_, ?_⟩ <;>
    simp [dateSelectOnClick, showDatePicker, setDialogDisplay, appPushScreen,
      mountedDialogNode, datePickerDialogCompose, UiWidget.topChildren]

/-! ## C9 -/

/-- C9: `DateSelect.value` always returns the current reactive date:
`none` when constructed without a date, the constructor's date argument
when one is given, and `event.date` after
`DateSelect.on_date_picker_selected` handles a selection. -/
theorem C9_value_tracks_date (d e : PendulumDateTime) (fmt ph : List Char)
    (s : DateSelectState) :
    (dateSelectInit none fmt ph).value = none ∧
    (dateSelectInit (some d) fmt ph).value = some d ∧
    (selectOnDatePickerSelected e s).value = some e :=
  ⟨rfl, rfl, rfl⟩

/-! ## C10 -/

/-- C10: when `DatePickerDialog.on_descendant_blur` runs and no
descendant matches `*:focus-within`, the dialog's display flag is set to
`False` (and nothing else changes); when some descendant still holds
focus, the dialog state is left entirely unchanged. -/
theorem C10_descendant_blur (st : DialogHost) :
    ((∀ d ∈ st.descendants, d.focusWithin = false) →
      dialogOnDescendantBlur st = { st with display := false }) ∧
    ((∃ d ∈ st.descendants, d.focusWithin = true) →
      dialogOnDescendantBlur st = st) := by
  constructor
  · intro hall
    have hfil : st.descendants.filter (fun d => d.focusWithin) = [] := by
      rw [List.filter_eq_nil_iff]
      intro a ha
      simp [hall a ha]
    simp [dialogOnDescendantBlur, hfil]
  · rintro ⟨d, hdmem, hdfoc⟩
    have hin : d ∈ st.descendants.filter fun x => x.focusWithin :=
      List.mem_filter.mpr ⟨hdmem, by simp [hdfoc]⟩
    have hne : (st.descendants.filter fun x => x.focusWithin).length ≠ 0 := by
      intro h0
      rw [List.length_eq_zero] at h0
      rw [h0] at hin
      exact absurd hin (List.not_mem_nil d)
    simp [dialogOnDescendantBlur, hne]

/-- C10 witness: a blur with no focused descendant hides the dialog; a
blur with a still-focused descendant changes nothing. -/
theorem C10_witness :
    dialogOnDescendantBlur ⟨true, [⟨false⟩]⟩ = ⟨false, [⟨false⟩]⟩ ∧
    dialogOnDescendantBlur ⟨true, [⟨true⟩]⟩ = ⟨true, [⟨true⟩]⟩ :=
  ⟨(C10_descendant_blur ⟨true, [⟨false⟩]⟩).1 (by decide),
   (C10_descendant_blur ⟨true, [⟨true⟩]⟩).2 ⟨⟨true⟩, by decide, rfl⟩⟩

end TextualDatepicker
